import Mathlib

/-!
# Verification of the BIG-IP certificate deployer

A shallow embedding of `certbot_deployer_bigip/__init__.py` (the deployment
workflow engine, task model, fingerprint computation and per-step remote
protocols), together with proofs of the spec's testable properties.

Remote command execution is modelled by an environment `RunEnv` mapping each
command string to an exit status (`exitOk`) and a captured standard output
(`stdout`); each remote-facing method is embedded as a function returning the
list of command strings it issued together with an `Except` result mirroring
the Python success / raised-`RuntimeError` outcome.
-/

namespace Bigip

/-- One file inside a certificate bundle: semantic label, local path, and the
derived remote filename (from the external `CertificateComponent`). -/
structure CertificateComponent where
  label : String
  path : String
  filename : String
deriving DecidableEq, Repr

/-- Does `pat` occur at the head of `s`? -/
def leadsWith : List Char → List Char → Bool
  | [], _ => true
  | _ :: _, [] => false
  | a :: as, b :: bs => a = b && leadsWith as bs

/-- `posixpath.join` for two components, as used by the deployer. -/
def posixJoin (a b : String) : String :=
  if leadsWith "/".data b.data then b
  else if a = "" ∨ leadsWith "/".data a.data.reverse then a ++ b
  else a ++ "/" ++ b

/-- An x509 certificate, modelled by the byte sequence that the external
cryptography collaborator returns as its SHA-256 digest
(`certdata.fingerprint(SHA256())`): the digest is a pure deterministic
function of the certificate bytes, so the certificate is represented by it. -/
structure X509Certificate where
  sha256 : List Nat
deriving DecidableEq, Repr

/-- `BIGIP_FINGERPRINT_ALGO`. -/
def BIGIP_FINGERPRINT_ALGO : String := "SHA256"

/-- Uppercase hexadecimal digit of a value below 16. -/
def hexDigitUpper (n : Nat) : Char :=
  match n with
  | 0 => '0' | 1 => '1' | 2 => '2' | 3 => '3' | 4 => '4'
  | 5 => '5' | 6 => '6' | 7 => '7' | 8 => '8' | 9 => '9'
  | 10 => 'A' | 11 => 'B' | 12 => 'C' | 13 => 'D' | 14 => 'E'
  | _ => 'F'

/-- One byte rendered as two uppercase hex digits (`bytes.hex().upper()`,
per byte; Python zero-pads each byte to two digits). -/
def byteToHexUpper (b : Nat) : List Char :=
  [hexDigitUpper (b / 16), hexDigitUpper (b % 16)]

/-- The whole digest rendered as uppercase hex characters. -/
def hexUpper (bytes : List Nat) : List Char :=
  bytes.flatMap byteToHexUpper

/-- Chunk a character list into successive pairs
(`fingerprint[i : i + 2] for i in range(0, len(fingerprint), 2)`). -/
def chunkPairs : List Char → List (List Char)
  | [] => []
  | [a] => [[a]]
  | a :: b :: rest => [a, b] :: chunkPairs rest

/-- `BigipCertificateBundle._fingerprint`: digest, uppercase hex, re-joined as
colon-separated pairs prefixed by the algorithm name. -/
def _fingerprint (certdata : X509Certificate) : String :=
  let hex : List Char := hexUpper certdata.sha256
  BIGIP_FINGERPRINT_ALGO ++ "/" ++
    String.intercalate ":" ((chunkPairs hex).map (fun l => String.mk l))

/-- A character admitted unchanged by the name sanitizer
(`[^.a-zA-Z0-9_-]` is replaced by an underscore). -/
def isSafeNameChar (c : Char) : Bool :=
  c = '.' || (c ≥ 'a' && c ≤ 'z') || (c ≥ 'A' && c ≤ 'Z') ||
    (c ≥ '0' && c ≤ '9') || c = '_' || c = '-'

/-- The sanitized common name (`re.sub` with a one-character class acts
character by character). -/
def sanitizeName (s : String) : String :=
  String.mk (s.data.map (fun c => if isSafeNameChar c then c else '_'))

/-- `BigipCertificateBundle`: the bundle plus the appliance object name and
the fingerprint computed at construction. The base-class components
(`fullchain`, `key`) come from the external bundle parser. -/
structure BigipCertificateBundle where
  common_name : String
  expires : String
  certdata : X509Certificate
  fullchain : CertificateComponent
  key : CertificateComponent
  name : String
  fingerprint : String
deriving DecidableEq, Repr

/-- `BigipCertificateBundle.__init__`: derive the object name from the
sanitized common name and expiry unless overridden, and compute the
fingerprint from `certdata` exactly once. -/
def BigipCertificateBundle.make (common_name expires : String)
    (certdata : X509Certificate) (fullchain key : CertificateComponent)
    (name : Option String) : BigipCertificateBundle :=
  { common_name := common_name
    expires := expires
    certdata := certdata
    fullchain := fullchain
    key := key
    name := match name with
      | none => sanitizeName common_name ++ "." ++ expires
      | some n => n
    fingerprint := _fingerprint certdata }

/-- `CertProfile = namedtuple("CertProfile", "name type")`. -/
structure CertProfile where
  name : String
  type : String
deriving DecidableEq, Repr

/-- The bound-callable operations a task can hold: the deployer methods used
as `exec_function` in this code base. -/
inductive ExecFn where
  | verify_sync
  | put_bigip_file
  | install_cert
  | verify_cert_installed
  | zero_bigip_file
  | save
  | manage_profile
  | sync
deriving DecidableEq, Repr

/-- A bound-argument value; the only values bound in this code base are
certificate components. -/
inductive Val where
  | comp (c : CertificateComponent)
deriving DecidableEq, Repr

/-- `BigipTask`: an optional name, a bound exec operation with its bound
positional/keyword arguments, and an optional bound revert operation with its
own stored arguments. -/
structure BigipTask where
  name : Option String := none
  exec_function : ExecFn
  exec_args : List Val := []
  exec_kwargs : List (String × Val) := []
  revert_function : Option ExecFn := none
  revert_args : List Val := []
  revert_kwargs : List (String × Val) := []
deriving DecidableEq, Repr

/-- `BigipTask.__eq__`: tuple comparison of the six bound fields; the name is
not part of equality. -/
def BigipTask.eqTask (a b : BigipTask) : Bool :=
  decide (a.exec_args = b.exec_args ∧ a.exec_function = b.exec_function ∧
    a.exec_kwargs = b.exec_kwargs ∧ a.revert_args = b.revert_args ∧
    a.revert_function = b.revert_function ∧ a.revert_kwargs = b.revert_kwargs)

/-- A record of one bound-callable invocation: which operation ran, with which
positional and keyword arguments. -/
inductive Call where
  | call (f : ExecFn) (args : List Val) (kwargs : List (String × Val))
deriving DecidableEq, Repr

/-- `dict(kwargs).update(exec_kwargs)`: existing keys keep their position and
take the updating value; new keys are appended in order. -/
def dictUpdate (a b : List (String × Val)) : List (String × Val) :=
  a.map (fun kv => match b.find? (fun kv2 => kv2.1 = kv.1) with
    | some kv2 => kv2
    | none => kv) ++
    b.filter (fun kv2 => ¬ a.any (fun kv => kv.1 = kv2.1))

/-- `BigipTask.execute`: call the bound exec operation with the caller's
arguments extended by the bound ones. -/
def BigipTask.execute (t : BigipTask) (args : List Val)
    (kwargs : List (String × Val)) : List Call :=
  [Call.call t.exec_function (args ++ t.exec_args) (dictUpdate kwargs t.exec_kwargs)]

/-- `BigipTask.revert`: if a revert operation was bound, call it with the
caller's arguments (the stored `revert_args` / `revert_kwargs` are not
forwarded); otherwise do nothing. -/
def BigipTask.revert (t : BigipTask) (args : List Val)
    (kwargs : List (String × Val)) : List Call :=
  match t.revert_function with
  | none => []
  | some f => [Call.call f args kwargs]

/-- `BigipDeployer` configuration state. -/
structure BigipDeployer where
  host : String
  dest_temp_dir : String
  certificate_bundle : BigipCertificateBundle
  sync_group : Option String
  profile : Option CertProfile
deriving DecidableEq, Repr

/-- `BigipDeployer.get_workflow`, transliterated. -/
def BigipDeployer.get_workflow (d : BigipDeployer) : List BigipTask :=
  let tasks0 : List BigipTask :=
    match d.sync_group with
    | some _ => [{ name := some "Verify Sync", exec_function := ExecFn.verify_sync }]
    | none => []
  let tasks1 : List BigipTask := tasks0 ++
    [ { name := some "Put cert file to remote"
        exec_function := ExecFn.put_bigip_file
        exec_kwargs := [("component", Val.comp d.certificate_bundle.fullchain)] },
      { name := some "Install cert"
        exec_function := ExecFn.install_cert
        exec_kwargs := [("component", Val.comp d.certificate_bundle.fullchain)] },
      { name := some "Verify cert installed"
        exec_function := ExecFn.verify_cert_installed
        exec_kwargs := [("component", Val.comp d.certificate_bundle.fullchain)] },
      { name := some "Put key file to remote"
        exec_function := ExecFn.put_bigip_file
        exec_kwargs := [("component", Val.comp d.certificate_bundle.key)] },
      { name := some "Install key"
        exec_function := ExecFn.install_cert
        exec_kwargs := [("component", Val.comp d.certificate_bundle.key)] },
      { name := some "Verify key installed"
        exec_function := ExecFn.verify_cert_installed
        exec_kwargs := [("component", Val.comp d.certificate_bundle.key)] },
      { name := some "Zero out cert file on remote"
        exec_function := ExecFn.zero_bigip_file
        exec_kwargs := [("component", Val.comp d.certificate_bundle.fullchain)] },
      { name := some "Zero out key file on remote"
        exec_function := ExecFn.zero_bigip_file
        exec_kwargs := [("component", Val.comp d.certificate_bundle.key)] },
      { name := some "Save running config to disk"
        exec_function := ExecFn.save } ]
  let tasks2 : List BigipTask := tasks1 ++
    (match d.profile with
     | some _ =>
        [{ name := some "Create/modify profile"
           exec_function := ExecFn.manage_profile
           exec_kwargs := [("component", Val.comp d.certificate_bundle.fullchain)] }]
     | none => [])
  tasks2 ++
    (match d.sync_group with
     | some _ => [{ name := some "Sync", exec_function := ExecFn.sync }]
     | none => [])

/-- The remote appliance side of one invocation: which command strings exit
zero, and the captured standard output of each command. -/
structure RunEnv where
  exitOk : String → Bool
  stdout : String → String

/-- Does `pat` occur anywhere inside `s`? (Python's `in` on strings.) -/
def occursIn (pat : List Char) : List Char → Bool
  | [] => leadsWith pat []
  | c :: rest => leadsWith pat (c :: rest) || occursIn pat rest

/-- `pat in s` for strings. -/
def strContains (s pat : String) : Bool :=
  occursIn pat.data s.data

/-- Split a character sequence at newline characters; with `re.MULTILINE`,
`^` and `$` anchor exactly at these boundaries (and at the ends). -/
def splitLines : List Char → List (List Char)
  | [] => [[]]
  | c :: rest =>
    if c = '\n' then [] :: splitLines rest
    else
      match splitLines rest with
      | [] => [[c]]
      | h :: t => (c :: h) :: t

/-- One line matching the anchored pattern of `verify_sync`
(`^Status.*In Sync$` under `re.I`): case-folded, the line starts with
"status", ends with "in sync", and is long enough that the two do not
overlap (`.` cannot match a newline, and lines carry none). -/
def lineMatchesSync (l : List Char) : Bool :=
  leadsWith "status".data (l.map Char.toLower) &&
    leadsWith "in sync".data.reverse (l.map Char.toLower).reverse &&
    decide (13 ≤ (l.map Char.toLower).length)

/-- `BigipDeployer.verify_sync`: query cluster status; a non-zero exit is
fatal, and so is output with no line matching `^Status.*In Sync$`
(case-insensitive, multiline). Returns the issued commands and the outcome. -/
def BigipDeployer.verify_sync (d : BigipDeployer) (env : RunEnv) :
    List String × Except String Unit :=
  let _ := d
  let cmd : String := "show /cm sync-status"
  if env.exitOk cmd then
    if (splitLines (env.stdout cmd).data).any lineMatchesSync then
      ([cmd], Except.ok ())
    else
      ([cmd], Except.error
        ("BIG-IP configuration out of sync. Cannot continue. All " ++
          "further operations aborted."))
  else
    ([cmd], Except.error
      "Failed checking sync status. Aborting all further operations.")

/-- The TMSH object type chosen for a component: any cert, full-chain or
leaf, is given the type `cert`; everything else the type `key`. -/
def bigipCertType (component : CertificateComponent) : String :=
  if component.label = "cert" ∨ component.label = "fullchain" then "cert" else "key"

/-- `BigipDeployer.install_cert`: issue the single install command; a
non-zero exit is re-raised as a fatal error naming the artifact label and the
bundle name. -/
def BigipDeployer.install_cert (d : BigipDeployer) (env : RunEnv)
    (component : CertificateComponent) : List String × Except String Unit :=
  let remote_filepath : String := posixJoin d.dest_temp_dir component.filename
  let cmd : String :=
    "install /sys crypto " ++ bigipCertType component ++ " " ++
      d.certificate_bundle.name ++ " from-local-file " ++ remote_filepath
  if env.exitOk cmd then
    ([cmd], Except.ok ())
  else
    ([cmd], Except.error
      ("Failed installing " ++ component.label ++ " `" ++
        d.certificate_bundle.name ++ "` on remote"))

/-- `BigipDeployer.verify_cert_installed`: list the object by type and name;
a non-zero exit is fatal; for cert-type objects the bundle fingerprint must
additionally appear in the listing output, else a distinct mismatch error is
raised; key-type objects are only checked for presence by name. -/
def BigipDeployer.verify_cert_installed (d : BigipDeployer) (env : RunEnv)
    (component : CertificateComponent) : List String × Except String Unit :=
  let t : String := bigipCertType component
  let cmd : String :=
    "list /sys crypto " ++ t ++ " " ++ d.certificate_bundle.name
  if env.exitOk cmd then
    if t = "cert" ∧ ¬ strContains (env.stdout cmd) d.certificate_bundle.fingerprint then
      ([cmd], Except.error
        ("Failed to match certificate fingerprint in " ++ "`" ++
          d.certificate_bundle.name ++ "` on remote"))
    else
      ([cmd], Except.ok ())
  else
    ([cmd], Except.error
      ("Failed verifying " ++ t ++ " `" ++ d.certificate_bundle.name ++
        "` present on remote"))

/-- `BigipDeployer.manage_profile`: list the profile; if the listing exits
non-zero, create the profile with cert and key bound to the bundle name; if
it exits zero, modify it with the same bindings; only a failure of the
create/modify command is fatal. -/
def BigipDeployer.manage_profile (d : BigipDeployer) (env : RunEnv) :
    List String × Except String Unit :=
  match d.profile with
  | none =>
    ([], Except.error
      ("This method cannot modify or create a remote profile unless its details " ++
        "are provided"))
  | some p =>
    let listCmd : String := "list /ltm profile " ++ p.type ++ " " ++ p.name
    if env.exitOk listCmd then
      let modCmd : String :=
        "modify /ltm profile " ++ p.type ++ " " ++ p.name ++ " cert " ++
          d.certificate_bundle.name ++ " key " ++ d.certificate_bundle.name
      if env.exitOk modCmd then
        ([listCmd, modCmd], Except.ok ())
      else
        ([listCmd, modCmd], Except.error
          ("Unexpected failure when trying to update the profile " ++ "`" ++
            p.name ++ "` to use the new cert"))
    else
      let createCmd : String :=
        "create /ltm profile " ++ p.type ++ " " ++ p.name ++ " cert " ++
          d.certificate_bundle.name ++ " key " ++ d.certificate_bundle.name
      if env.exitOk createCmd then
        ([listCmd, createCmd], Except.ok ())
      else
        ([listCmd, createCmd], Except.error
          ("Failed to create profile `" ++ p.name ++ "` on remote"))

/-- The result of one external `subprocess.run` invocation. -/
structure ProcResult where
  returncode : Nat
  stdout : String
  stderr : String

/-- A fatal transfer error carrying the external utility's exit code and
captured output. -/
inductive ScpError where
  | transferFailed (returncode : Nat) (stdout stderr : String)
deriving DecidableEq, Repr

/-- Modelled from the spec: the standalone secure-copy negotiator function
`scp` (imported by the tests but absent from the shipped sources). Given the
external transfer utility (modelled as a function from the argument vector to
the process result; a non-zero return code is the raised
`CalledProcessError`), it first attempts the transfer with the explicit
protocol flag `-O`; if and only if that invocation exits non-zero it retries
once without the flag; only a failure of the fallback attempt is fatal,
raised with the utility's exit code and captured output. Returns the list of
argument vectors invoked, in order, and the outcome. -/
def scp (util : List String → ProcResult) (host localfile remotefile : String) :
    List (List String) × Except ScpError Unit :=
  let dest : String := host ++ ":" ++ remotefile
  let cmdFlag : List String := ["scp", "-O", localfile, dest]
  let r1 : ProcResult := util cmdFlag
  if r1.returncode = 0 then
    ([cmdFlag], Except.ok ())
  else
    let cmdPlain : List String := ["scp", localfile, dest]
    let r2 : ProcResult := util cmdPlain
    if r2.returncode = 0 then
      ([cmdFlag, cmdPlain], Except.ok ())
    else
      ([cmdFlag, cmdPlain],
        Except.error (ScpError.transferFailed r2.returncode r2.stdout r2.stderr))

/-- Python's `str` of an optional task name as printed by the dry-run line. -/
def pyStrOptName : Option String → String
  | none => "None"
  | some s => s

/-- The banner printed before a dry run. -/
def dryRunBanner : String :=
  "# Running in dry run mode. Will not run actual deployment tasks."

/-- The per-task part of `BigipDeployer.entrypoint`: in dry-run mode print
one `Would run task:` line per task and execute nothing; otherwise execute
each task in order. Returns the printed lines and the invocations made. -/
def runTasks (dry_run : Bool) : List BigipTask → List String × List Call
  | [] => ([], [])
  | t :: rest =>
    let tail := runTasks dry_run rest
    if dry_run then
      (("Would run task: " ++ pyStrOptName t.name) :: tail.1, tail.2)
    else
      (tail.1, t.execute [] [] ++ tail.2)

/-- The execution phase of `BigipDeployer.entrypoint`: the dry-run banner
when requested, then the per-task loop. -/
def entrypointRun (dry_run : Bool) (workflow : List BigipTask) :
    List String × List Call :=
  let body := runTasks dry_run workflow
  (if dry_run then dryRunBanner :: body.1 else body.1, body.2)

/-- The workflow as described by the six construction steps of the spec:
an optional verify-sync guard; upload, install, verify for the full chain and
then for the key; zero-out of the staged chain then the staged key; persist
the configuration; an optional profile task bound to the certificate
artifact; an optional sync task. Task names are not fixed by the spec; tasks
are compared by the code's own name-insensitive equality. -/
def workflow_spec (d : BigipDeployer) : List BigipTask :=
  let artifactTasks : CertificateComponent → List BigipTask := fun a =>
    [ { exec_function := ExecFn.put_bigip_file
        exec_kwargs := [("component", Val.comp a)] },
      { exec_function := ExecFn.install_cert
        exec_kwargs := [("component", Val.comp a)] },
      { exec_function := ExecFn.verify_cert_installed
        exec_kwargs := [("component", Val.comp a)] } ]
  (if d.sync_group.isSome then
    [{ exec_function := ExecFn.verify_sync }] else []) ++
  ([d.certificate_bundle.fullchain, d.certificate_bundle.key].flatMap artifactTasks) ++
  [ { exec_function := ExecFn.zero_bigip_file
      exec_kwargs := [("component", Val.comp d.certificate_bundle.fullchain)] },
    { exec_function := ExecFn.zero_bigip_file
      exec_kwargs := [("component", Val.comp d.certificate_bundle.key)] } ] ++
  [ { exec_function := ExecFn.save } ] ++
  (if d.profile.isSome then
    [{ exec_function := ExecFn.manage_profile
       exec_kwargs := [("component", Val.comp d.certificate_bundle.fullchain)] }]
   else []) ++
  (if d.sync_group.isSome then [{ exec_function := ExecFn.sync }] else [])

/-! Concrete fixtures used to exercise the definitions on closed inputs. -/

/-- A fixed full-chain component. -/
def compCert : CertificateComponent :=
  { label := "fullchain"
    path := "/etc/letsencrypt/live/x.example.org/fullchain.pem"
    filename := "fullchain.pem" }

/-- A fixed private-key component. -/
def compKey : CertificateComponent :=
  { label := "key"
    path := "/etc/letsencrypt/live/x.example.org/privkey.pem"
    filename := "privkey.pem" }

/-- A fixed intermediates component (label outside cert/fullchain/key). -/
def compInter : CertificateComponent :=
  { label := "intermediates"
    path := "/etc/letsencrypt/live/x.example.org/chain.pem"
    filename := "chain.pem" }

/-- A fixed certificate whose SHA-256 digest is 32 copies of byte 0xAB. -/
def certFix : X509Certificate := { sha256 := List.replicate 32 171 }

/-- A fixed bundle built by the constructor with no name override. -/
def bundleFix : BigipCertificateBundle :=
  BigipCertificateBundle.make "x.example.org" "2026-01-01T00:00:00" certFix
    compCert compKey none

/-- A fixed profile. -/
def profileFix : CertProfile := { name := "p1", type := "client-ssl" }

/-- A fixed deployer with both a sync group and a profile configured. -/
def deployerFix : BigipDeployer :=
  { host := "bigip.example.org"
    dest_temp_dir := "/var/tmp"
    certificate_bundle := bundleFix
    sync_group := some "sg"
    profile := some profileFix }

/-- A task carrying a bound revert operation together with stored revert
arguments. -/
def revTask : BigipTask :=
  { name := some "t"
    exec_function := ExecFn.save
    revert_function := some ExecFn.save
    revert_args := [Val.comp compKey] }

/-- An environment where every command succeeds and reports an in-sync
cluster. -/
def envSyncGood : RunEnv :=
  { exitOk := fun _ => true
    stdout := fun _ => "Status: In Sync" }

/-- An environment where every command succeeds but the cluster status is
bad. -/
def envSyncBad : RunEnv :=
  { exitOk := fun _ => true
    stdout := fun _ => "Status: Bad" }

/-- An environment where every command succeeds with empty output. -/
def envAllOk : RunEnv :=
  { exitOk := fun _ => true
    stdout := fun _ => "" }

/-- An environment where exactly the profile listing command for
`profileFix` exits non-zero. -/
def envListFails : RunEnv :=
  { exitOk := fun c => if c = "list /ltm profile client-ssl p1" then false else true
    stdout := fun _ => "" }

/-- A transfer utility that rejects the `-O` flag and accepts everything
else (openssh-client before 9.0). -/
def utilNoFlag : List String → ProcResult := fun cmd =>
  if cmd.contains "-O" then { returncode := 255, stdout := "", stderr := "" }
  else { returncode := 0, stdout := "ok", stderr := "" }

/-- A transfer utility that accepts every invocation. -/
def utilOk : List String → ProcResult := fun _ =>
  { returncode := 0, stdout := "ok", stderr := "" }

/-- A transfer utility that always fails. -/
def utilAlwaysFail : List String → ProcResult := fun _ =>
  { returncode := 255, stdout := "boom", stderr := "bang" }

/-- The names of the twelve tasks of `deployerFix.get_workflow`. -/
def wfNames : List String :=
  ["Verify Sync", "Put cert file to remote", "Install cert",
    "Verify cert installed", "Put key file to remote", "Install key",
    "Verify key installed", "Zero out cert file on remote",
    "Zero out key file on remote", "Save running config to disk",
    "Create/modify profile", "Sync"]

/-! Helper lemmas about the string matchers and renderers. -/

theorem leadsWith_iff (p s : List Char) :
    leadsWith p s = true ↔ ∃ t, s = p ++ t := by
  induction p generalizing s with
  | nil => simp [leadsWith]
  | cons a as ih =>
    cases s with
    | nil => simp [leadsWith]
    | cons b bs =>
      simp only [leadsWith, Bool.and_eq_true, decide_eq_true_eq, ih,
        List.cons_append]
      constructor
      · rintro ⟨rfl, t, rfl⟩
        exact ⟨t, rfl⟩
      · rintro ⟨t, h⟩
        rw [List.cons.injEq] at h
        exact ⟨h.1.symm, t, h.2⟩

theorem leadsWith_self (p t : List Char) : leadsWith p (p ++ t) = true :=
  (leadsWith_iff p (p ++ t)).mpr ⟨t, rfl⟩

theorem occursIn_of_leadsWith (p s : List Char) (h : leadsWith p s = true) :
    occursIn p s = true := by
  cases s with
  | nil => simpa [occursIn] using h
  | cons c rest => simp [occursIn, h]

theorem occursIn_append_of (p : List Char) (x : List Char) (s : List Char)
    (h : occursIn p s = true) : occursIn p (x ++ s) = true := by
  induction x with
  | nil => simpa using h
  | cons c cs ih =>
    simp only [List.cons_append, occursIn, Bool.or_eq_true]
    exact Or.inr ih

theorem strContains_mid (a pat b : String) :
    strContains (a ++ pat ++ b) pat = true := by
  unfold strContains
  rw [String.data_append, String.data_append, List.append_assoc]
  exact occursIn_append_of _ _ _
    (occursIn_of_leadsWith _ _ (leadsWith_self pat.data b.data))

theorem append_overlap (a t u c : List Char) (h : a ++ t = u ++ c)
    (hlen : a.length ≤ u.length) : ∃ mid, u = a ++ mid := by
  induction a generalizing u with
  | nil => exact ⟨u, rfl⟩
  | cons x as ih =>
    cases u with
    | nil => simp at hlen
    | cons y us =>
      simp only [List.cons_append, List.cons.injEq] at h
      obtain ⟨rfl, h2⟩ := h
      obtain ⟨mid, rfl⟩ := ih us h2 (by simpa using hlen)
      exact ⟨mid, rfl⟩

theorem lineMatchesSync_iff (l : List Char) :
    lineMatchesSync l = true ↔
      ∃ mid, l.map Char.toLower = "status".data ++ mid ++ "in sync".data := by
  unfold lineMatchesSync
  simp only [Bool.and_eq_true, decide_eq_true_eq, leadsWith_iff]
  constructor
  · rintro ⟨⟨⟨t, ht⟩, ⟨u, hu⟩⟩, hlen⟩
    have hL : l.map Char.toLower = u.reverse ++ "in sync".data := by
      have := congrArg List.reverse hu
      simpa [List.reverse_append] using this
    have hd7 : ("in sync".data).length = 7 := by decide
    have hd6 : ("status".data).length = 6 := by decide
    have h7 : (l.map Char.toLower).length = u.length + 7 := by
      rw [hL, List.length_append, List.length_reverse, hd7]
    have hlen6 : ("status".data).length ≤ u.reverse.length := by
      rw [hd6, List.length_reverse]
      omega
    obtain ⟨mid, hm⟩ := append_overlap "status".data t u.reverse "in sync".data
      (ht.symm.trans hL) hlen6
    exact ⟨mid, by rw [hL, hm, List.append_assoc]⟩
  · rintro ⟨mid, hm⟩
    refine ⟨⟨⟨mid ++ "in sync".data, by rw [hm, List.append_assoc]⟩,
      ⟨("status".data ++ mid).reverse, ?_⟩⟩, ?_⟩
    · rw [hm]
      simp [List.reverse_append, List.append_assoc]
    · rw [hm]
      simp [List.length_append]

theorem chunkPairs_hexUpper (bs : List Nat) :
    chunkPairs (hexUpper bs) = bs.map byteToHexUpper := by
  induction bs with
  | nil => rfl
  | cons b rest ih =>
    simp [hexUpper, byteToHexUpper, chunkPairs, ih]
    simp only [hexUpper] at ih
    simpa [chunkPairs] using ih

theorem hexDigitUpper_mem (n : Nat) (h : n < 16) :
    hexDigitUpper n ∈ "0123456789ABCDEF".data := by
  have hall : ∀ m, m < 16 → hexDigitUpper m ∈ "0123456789ABCDEF".data := by decide
  exact hall n h

theorem runTasks_dry (l : List BigipTask) :
    runTasks true l =
      (l.map (fun t => "Would run task: " ++ pyStrOptName t.name), []) := by
  induction l with
  | nil => rfl
  | cons t rest ih => simp [runTasks, ih]

theorem strContains_mid5_2 (a b c d e : String) :
    strContains (a ++ b ++ c ++ d ++ e) b = true := by
  unfold strContains
  simp only [String.data_append, List.append_assoc]
  exact occursIn_append_of _ _ _
    (occursIn_of_leadsWith _ _ (leadsWith_self _ _))

theorem strContains_mid5_4 (a b c d e : String) :
    strContains (a ++ b ++ c ++ d ++ e) d = true := by
  unfold strContains
  simp only [String.data_append, List.append_assoc]
  exact occursIn_append_of _ _ _ (occursIn_append_of _ _ _
    (occursIn_append_of _ _ _
      (occursIn_of_leadsWith _ _ (leadsWith_self _ _))))

/-- C8: Task equality holds iff the bound exec operation, exec positional and
keyword arguments, revert operation, and revert positional and keyword
arguments are all equal; two Tasks differing only in their name compare
equal; Task equality is reflexive and symmetric. -/
theorem task_equality_bound_fields (a b : BigipTask) :
    (BigipTask.eqTask a b = true ↔
      (a.exec_function = b.exec_function ∧ a.exec_args = b.exec_args ∧
        a.exec_kwargs = b.exec_kwargs ∧ a.revert_function = b.revert_function ∧
        a.revert_args = b.revert_args ∧ a.revert_kwargs = b.revert_kwargs)) ∧
    (∀ n : Option String, BigipTask.eqTask a { a with name := n } = true) ∧
    BigipTask.eqTask a a = true ∧
    BigipTask.eqTask a b = BigipTask.eqTask b a := by
  refine ⟨?_, ?_, ?_, ?_⟩
  · simp only [BigipTask.eqTask, decide_eq_true_eq]
    tauto
  · intro n
    simp [BigipTask.eqTask]
  · simp [BigipTask.eqTask]
  · simp only [BigipTask.eqTask]
    exact decide_eq_decide.mpr
      ⟨fun h => ⟨h.1.symm, h.2.1.symm, h.2.2.1.symm, h.2.2.2.1.symm,
        h.2.2.2.2.1.symm, h.2.2.2.2.2.symm⟩,
       fun h => ⟨h.1.symm, h.2.1.symm, h.2.2.1.symm, h.2.2.2.1.symm,
        h.2.2.2.2.1.symm, h.2.2.2.2.2.symm⟩⟩

/-- C7 counterexample: `revTask` is constructed with a revert operation and a
non-empty bound `revert_args`, yet `revert` called with no arguments does not
invoke the revert operation with those bound arguments — the bound revert
arguments are never forwarded. -/
theorem revert_bound_args_cex :
    ¬ (BigipTask.revert revTask [] [] =
      [Call.call ExecFn.save revTask.revert_args revTask.revert_kwargs]) := by
  decide

/-- C7 (amended): `revert` invokes the bound revert operation, when one was
supplied, with exactly the arguments passed to `revert` itself — the stored
bound revert arguments are not forwarded and the result does not depend on
them; a Task without a revert operation is a no-op on revert. -/
theorem revert_uses_caller_args (t : BigipTask) (args : List Val)
    (kwargs : List (String × Val)) :
    (t.revert_function = none → t.revert args kwargs = []) ∧
    (∀ f, t.revert_function = some f →
      t.revert args kwargs = [Call.call f args kwargs]) ∧
    (∀ ra rk, BigipTask.revert
        { t with revert_args := ra, revert_kwargs := rk } args kwargs =
      t.revert args kwargs) := by
  unfold BigipTask.revert
  refine ⟨?_, ?_, ?_⟩
  · intro h
    rw [h]
  · intro f h
    rw [h]
  · intro ra rk
    rfl

/-- Witness for C7's amended theorem at the concrete task `revTask`. -/
theorem revert_uses_caller_args_witness :
    revTask.revert_function = some ExecFn.save ∧
    BigipTask.revert revTask [] [] = [Call.call ExecFn.save [] []] :=
  ⟨rfl, (revert_uses_caller_args revTask [] []).2.1 ExecFn.save rfl⟩

/-- C1: for every configuration, `get_workflow` returns exactly the task
sequence of the six construction steps, in order, and nothing else; tasks
are compared by the code's own name-insensitive equality. -/
theorem get_workflow_matches_six_steps (d : BigipDeployer) :
    (d.get_workflow).length = (workflow_spec d).length ∧
    List.Forall₂ (fun a b => BigipTask.eqTask a b = true)
      d.get_workflow (workflow_spec d) := by
  obtain ⟨h, dt, cb, sg, pr⟩ := d
  cases sg <;> cases pr <;>
    simp [BigipDeployer.get_workflow, workflow_spec, BigipTask.eqTask,
      List.forall₂_cons]

/-- C2: `install_cert` issues exactly one command, of the cert form for
"cert"/"fullchain" labels and the key form otherwise (so for "key"), where
the staged path joins the staging directory with the component filename; a
non-zero exit yields a fatal error naming the artifact label and the target
name. -/
theorem install_cert_single_command (d : BigipDeployer) (env : RunEnv)
    (component : CertificateComponent) :
    ∃ cmd : String,
      cmd = "install /sys crypto " ++ bigipCertType component ++ " " ++
        d.certificate_bundle.name ++ " from-local-file " ++
        posixJoin d.dest_temp_dir component.filename ∧
      ((component.label = "cert" ∨ component.label = "fullchain") →
        bigipCertType component = "cert") ∧
      (component.label = "key" → bigipCertType component = "key") ∧
      (d.install_cert env component).1 = [cmd] ∧
      ((d.install_cert env component).2 = Except.ok () ↔
        env.exitOk cmd = true) ∧
      (env.exitOk cmd = false →
        (d.install_cert env component).2 = Except.error
          ("Failed installing " ++ component.label ++ " `" ++
            d.certificate_bundle.name ++ "` on remote") ∧
        strContains ("Failed installing " ++ component.label ++ " `" ++
          d.certificate_bundle.name ++ "` on remote") component.label = true ∧
        strContains ("Failed installing " ++ component.label ++ " `" ++
          d.certificate_bundle.name ++ "` on remote")
          d.certificate_bundle.name = true) := by
  have hdef : d.install_cert env component =
      if env.exitOk ("install /sys crypto " ++ bigipCertType component ++ " " ++
          d.certificate_bundle.name ++ " from-local-file " ++
          posixJoin d.dest_temp_dir component.filename) then
        (["install /sys crypto " ++ bigipCertType component ++ " " ++
          d.certificate_bundle.name ++ " from-local-file " ++
          posixJoin d.dest_temp_dir component.filename], Except.ok ())
      else
        (["install /sys crypto " ++ bigipCertType component ++ " " ++
          d.certificate_bundle.name ++ " from-local-file " ++
          posixJoin d.dest_temp_dir component.filename], Except.error
          ("Failed installing " ++ component.label ++ " `" ++
            d.certificate_bundle.name ++ "` on remote")) := rfl
  refine ⟨_, rfl, ?_, ?_, ?_, ?_, ?_⟩
  · intro hlab
    unfold bigipCertType
    rw [if_pos hlab]
  · intro hlab
    unfold bigipCertType
    rw [if_neg]
    simp [hlab]
  · rw [hdef]
    cases henv : env.exitOk ("install /sys crypto " ++ bigipCertType component ++
        " " ++ d.certificate_bundle.name ++ " from-local-file " ++
        posixJoin d.dest_temp_dir component.filename) <;> simp [henv]
  · rw [hdef]
    cases henv : env.exitOk ("install /sys crypto " ++ bigipCertType component ++
        " " ++ d.certificate_bundle.name ++ " from-local-file " ++
        posixJoin d.dest_temp_dir component.filename) <;> simp [henv]
  · intro henv
    rw [hdef, henv]
    refine ⟨by simp, ?_, ?_⟩
    · exact strContains_mid5_2 "Failed installing " component.label " `"
        d.certificate_bundle.name "` on remote"
    · exact strContains_mid5_4 "Failed installing " component.label " `"
        d.certificate_bundle.name "` on remote"

/-- Witness for C2 at a concrete deployer and the key component. -/
theorem install_cert_single_command_witness :
    (deployerFix.install_cert envAllOk compKey).1 =
      ["install /sys crypto key x.example.org.2026-01-01T00:00:00 " ++
        "from-local-file /var/tmp/privkey.pem"] ∧
    (deployerFix.install_cert envAllOk compKey).2 = Except.ok () := by
  obtain ⟨cmd, hcmd, _, hkey, hone, hok, _⟩ :=
    install_cert_single_command deployerFix envAllOk compKey
  refine ⟨?_, hok.mpr rfl⟩
  rw [hone, hcmd]
  decide

/-- C10: any component label outside "cert"/"fullchain" — including
"intermediates", not only "key" — is installed and verified under the
appliance object type "key", and verification then skips the fingerprint
check: presence by name (a zero exit of the listing) suffices. -/
theorem nondefault_label_treated_as_key (d : BigipDeployer) (env : RunEnv)
    (component : CertificateComponent)
    (h1 : component.label ≠ "cert") (h2 : component.label ≠ "fullchain") :
    bigipCertType component = "key" ∧
    (d.install_cert env component).1 =
      ["install /sys crypto key " ++ d.certificate_bundle.name ++
        " from-local-file " ++ posixJoin d.dest_temp_dir component.filename] ∧
    (d.verify_cert_installed env component).1 =
      ["list /sys crypto key " ++ d.certificate_bundle.name] ∧
    (env.exitOk ("list /sys crypto key " ++ d.certificate_bundle.name) = true →
      (d.verify_cert_installed env component).2 = Except.ok ()) := by
  have hk : bigipCertType component = "key" := by
    unfold bigipCertType
    rw [if_neg]
    simp [h1, h2]
  refine ⟨hk, ?_, ?_, ?_⟩
  · unfold BigipDeployer.install_cert
    rw [hk]
    cases henv : env.exitOk ("install /sys crypto key " ++
        d.certificate_bundle.name ++ " from-local-file " ++
        posixJoin d.dest_temp_dir component.filename) <;> simp [henv]
  · unfold BigipDeployer.verify_cert_installed
    rw [hk]
    cases henv : env.exitOk ("list /sys crypto key " ++
        d.certificate_bundle.name) <;> simp [henv]
  · intro henv
    simp [BigipDeployer.verify_cert_installed, hk, henv]

/-- Witness for C10 at the "intermediates" component, with a listing output
that does not contain the fingerprint. -/
theorem nondefault_label_treated_as_key_witness :
    compInter.label ≠ "cert" ∧ compInter.label ≠ "fullchain" ∧
    bigipCertType compInter = "key" ∧
    (deployerFix.verify_cert_installed envAllOk compInter).2 = Except.ok () := by
  have h := nondefault_label_treated_as_key deployerFix envAllOk compInter
    (by decide) (by decide)
  exact ⟨by decide, by decide, h.1, h.2.2.2 rfl⟩

/-- C3: with a profile configured, `manage_profile` issues exactly two
commands: the listing first, then create when the listing failed and modify
when it succeeded, both binding cert and key to the bundle name; the overall
run succeeds iff the second command succeeds (a listing failure alone is
never fatal), and each second-command failure raises its fatal error. -/
theorem manage_profile_two_commands (d : BigipDeployer) (env : RunEnv)
    (p : CertProfile) (hp : d.profile = some p) :
    ∃ listCmd createCmd modCmd : String,
      listCmd = "list /ltm profile " ++ p.type ++ " " ++ p.name ∧
      createCmd = "create /ltm profile " ++ p.type ++ " " ++ p.name ++
        " cert " ++ d.certificate_bundle.name ++ " key " ++
        d.certificate_bundle.name ∧
      modCmd = "modify /ltm profile " ++ p.type ++ " " ++ p.name ++
        " cert " ++ d.certificate_bundle.name ++ " key " ++
        d.certificate_bundle.name ∧
      (d.manage_profile env).1 =
        [listCmd, if env.exitOk listCmd then modCmd else createCmd] ∧
      (d.manage_profile env).1.length = 2 ∧
      ((d.manage_profile env).2 = Except.ok () ↔
        env.exitOk (if env.exitOk listCmd then modCmd else createCmd) = true) ∧
      (env.exitOk listCmd = false → env.exitOk createCmd = false →
        (d.manage_profile env).2 = Except.error
          ("Failed to create profile `" ++ p.name ++ "` on remote")) ∧
      (env.exitOk listCmd = true → env.exitOk modCmd = false →
        (d.manage_profile env).2 = Except.error
          ("Unexpected failure when trying to update the profile " ++ "`" ++
            p.name ++ "` to use the new cert")) := by
  unfold BigipDeployer.manage_profile
  rw [hp]
  refine ⟨_, _, _, rfl, rfl, rfl, ?_, ?_, ?_, ?_, ?_⟩ <;>
    cases hl : env.exitOk ("list /ltm profile " ++ p.type ++ " " ++ p.name)
  · cases hc : env.exitOk ("create /ltm profile " ++ p.type ++ " " ++ p.name ++
        " cert " ++ d.certificate_bundle.name ++ " key " ++
        d.certificate_bundle.name) <;> simp [hl, hc]
  · cases hm : env.exitOk ("modify /ltm profile " ++ p.type ++ " " ++ p.name ++
        " cert " ++ d.certificate_bundle.name ++ " key " ++
        d.certificate_bundle.name) <;> simp [hl, hm]
  · cases hc : env.exitOk ("create /ltm profile " ++ p.type ++ " " ++ p.name ++
        " cert " ++ d.certificate_bundle.name ++ " key " ++
        d.certificate_bundle.name) <;> simp [hl, hc]
  · cases hm : env.exitOk ("modify /ltm profile " ++ p.type ++ " " ++ p.name ++
        " cert " ++ d.certificate_bundle.name ++ " key " ++
        d.certificate_bundle.name) <;> simp [hl, hm]
  · cases hc : env.exitOk ("create /ltm profile " ++ p.type ++ " " ++ p.name ++
        " cert " ++ d.certificate_bundle.name ++ " key " ++
        d.certificate_bundle.name) <;> simp [hl, hc]
  · cases hm : env.exitOk ("modify /ltm profile " ++ p.type ++ " " ++ p.name ++
        " cert " ++ d.certificate_bundle.name ++ " key " ++
        d.certificate_bundle.name) <;> simp [hl, hm]
  · cases hc : env.exitOk ("create /ltm profile " ++ p.type ++ " " ++ p.name ++
        " cert " ++ d.certificate_bundle.name ++ " key " ++
        d.certificate_bundle.name) <;> simp [hl, hc]
  · intro h
    simp at h
  · intro h
    simp at h
  · cases hm : env.exitOk ("modify /ltm profile " ++ p.type ++ " " ++ p.name ++
        " cert " ++ d.certificate_bundle.name ++ " key " ++
        d.certificate_bundle.name) <;> simp [hl, hm]

/-- Witness for C3: against `envListFails` the listing fails, so exactly the
listing and the create command are issued and the run succeeds. -/
theorem manage_profile_two_commands_witness :
    deployerFix.profile = some profileFix ∧
    (deployerFix.manage_profile envListFails).1.length = 2 ∧
    (deployerFix.manage_profile envListFails).2 = Except.ok () := by
  obtain ⟨lc, cc, mc, hl, hc, hm, hcmds, hlen, hok, _, _⟩ :=
    manage_profile_two_commands deployerFix envListFails profileFix rfl
  refine ⟨rfl, hlen, hok.mpr ?_⟩
  rw [hl, hc, hm]
  decide

/-- C4: `verify_sync` issues the cluster-status command and succeeds exactly
when it exits zero and the output has a line matching "Status" followed by
"In Sync" case-insensitively (formally: a case-folded line decomposing as
"status" ++ anything ++ "in sync"); any other status output raises the
out-of-sync precondition error, and a non-zero exit of the status command
raises its own fatal error. -/
theorem verify_sync_in_sync_guard (d : BigipDeployer) (env : RunEnv) :
    (d.verify_sync env).1 = ["show /cm sync-status"] ∧
    (∀ l : List Char, lineMatchesSync l = true ↔
      ∃ mid, l.map Char.toLower = "status".data ++ mid ++ "in sync".data) ∧
    ((d.verify_sync env).2 = Except.ok () ↔
      (env.exitOk "show /cm sync-status" = true ∧
        (splitLines (env.stdout "show /cm sync-status").data).any
          lineMatchesSync = true)) ∧
    (env.exitOk "show /cm sync-status" = true →
      (splitLines (env.stdout "show /cm sync-status").data).any
        lineMatchesSync = false →
      (d.verify_sync env).2 = Except.error
        ("BIG-IP configuration out of sync. Cannot continue. All " ++
          "further operations aborted.")) ∧
    (env.exitOk "show /cm sync-status" = false →
      (d.verify_sync env).2 = Except.error
        "Failed checking sync status. Aborting all further operations.") := by
  refine ⟨?_, lineMatchesSync_iff, ?_, ?_, ?_⟩
  · unfold BigipDeployer.verify_sync
    cases he : env.exitOk "show /cm sync-status" <;>
      cases hm : (splitLines (env.stdout "show /cm sync-status").data).any
        lineMatchesSync <;> simp [he, hm]
  · unfold BigipDeployer.verify_sync
    cases he : env.exitOk "show /cm sync-status" <;>
      cases hm : (splitLines (env.stdout "show /cm sync-status").data).any
        lineMatchesSync <;> simp [he, hm]
  · intro he hm
    simp [BigipDeployer.verify_sync, he, hm]
  · intro he
    simp [BigipDeployer.verify_sync, he]

/-- Witness for C4: an in-sync report succeeds; a bad status report raises
the precondition error. -/
theorem verify_sync_in_sync_guard_witness :
    (deployerFix.verify_sync envSyncGood).2 = Except.ok () ∧
    (deployerFix.verify_sync envSyncBad).2 = Except.error
      ("BIG-IP configuration out of sync. Cannot continue. All " ++
        "further operations aborted.") := by
  constructor
  · exact (verify_sync_in_sync_guard deployerFix envSyncGood).2.2.1.mpr
      ⟨rfl, by decide⟩
  · exact (verify_sync_in_sync_guard deployerFix envSyncBad).2.2.2.1 rfl
      (by decide)

/-- C5: the standalone secure-copy negotiator first invokes the transfer
utility with the protocol flag; if and only if that invocation exits
non-zero it invokes the same transfer once more without the flag; a
flag-accepting utility sees exactly one invocation; only a failure of the
fallback attempt raises the fatal transfer error carrying the utility's exit
code and captured output. -/
theorem scp_flag_negotiation (util : List String → ProcResult)
    (host localfile remotefile : String) :
    ((util ["scp", "-O", localfile, host ++ ":" ++ remotefile]).returncode = 0 →
      scp util host localfile remotefile =
        ([["scp", "-O", localfile, host ++ ":" ++ remotefile]],
          Except.ok ())) ∧
    ((util ["scp", "-O", localfile, host ++ ":" ++ remotefile]).returncode ≠ 0 →
      (scp util host localfile remotefile).1 =
        [["scp", "-O", localfile, host ++ ":" ++ remotefile],
          ["scp", localfile, host ++ ":" ++ remotefile]] ∧
      ((util ["scp", localfile, host ++ ":" ++ remotefile]).returncode = 0 →
        (scp util host localfile remotefile).2 = Except.ok ()) ∧
      ((util ["scp", localfile, host ++ ":" ++ remotefile]).returncode ≠ 0 →
        (scp util host localfile remotefile).2 = Except.error
          (ScpError.transferFailed
            (util ["scp", localfile, host ++ ":" ++ remotefile]).returncode
            (util ["scp", localfile, host ++ ":" ++ remotefile]).stdout
            (util ["scp", localfile, host ++ ":" ++ remotefile]).stderr))) := by
  unfold scp
  constructor
  · intro h1
    simp [h1]
  · intro h1
    refine ⟨?_, ?_, ?_⟩
    · cases h2 : (util ["scp", localfile, host ++ ":" ++ remotefile]).returncode <;>
        simp [h1, h2]
    · intro h2
      simp [h1, h2]
    · intro h2
      simp [h1, h2]

/-- Witness for C5: against a utility rejecting the flag, both invocations
occur in order and the fallback succeeds. -/
theorem scp_flag_negotiation_witness :
    (utilNoFlag ["scp", "-O", "LOCALFILE",
      "something.domain.tld" ++ ":" ++ "REMOTEFILE"]).returncode ≠ 0 ∧
    (scp utilNoFlag "something.domain.tld" "LOCALFILE" "REMOTEFILE").1.length = 2 ∧
    (scp utilNoFlag "something.domain.tld" "LOCALFILE" "REMOTEFILE").2 =
      Except.ok () := by
  have h := (scp_flag_negotiation utilNoFlag "something.domain.tld" "LOCALFILE"
    "REMOTEFILE").2 (by decide)
  exact ⟨by decide, by rw [h.1]; rfl, h.2.1 (by decide)⟩

/-- C6: the fingerprint is a pure deterministic function of the certificate
(recomputation yields the same string); it renders as `SHA256/` followed by
exactly 32 uppercase two-hex-digit groups joined by colons; the bundle's
fingerprint field is exactly this function of its `certdata` at
construction. -/
theorem fingerprint_format_and_construction (c : X509Certificate)
    (hlen : c.sha256.length = 32) (hbytes : ∀ b ∈ c.sha256, b < 256) :
    _fingerprint c = _fingerprint c ∧
    (∀ cn e fc k nm,
      (BigipCertificateBundle.make cn e c fc k nm).fingerprint =
        _fingerprint c) ∧
    ∃ groups : List String,
      _fingerprint c = "SHA256/" ++ String.intercalate ":" groups ∧
      groups.length = 32 ∧
      ∀ g ∈ groups, g.length = 2 ∧
        ∀ ch ∈ g.data, ch ∈ "0123456789ABCDEF".data := by
  refine ⟨rfl, fun _ _ _ _ _ => rfl,
    (c.sha256.map byteToHexUpper).map (fun l => String.mk l), ?_, ?_, ?_⟩
  · show BIGIP_FINGERPRINT_ALGO ++ "/" ++ String.intercalate ":"
      ((chunkPairs (hexUpper c.sha256)).map (fun l => String.mk l)) = _
    rw [chunkPairs_hexUpper]
    have halg : BIGIP_FINGERPRINT_ALGO ++ "/" = "SHA256/" := by decide
    rw [halg]
  · simp [hlen]
  · intro g hg
    simp only [List.mem_map] at hg
    obtain ⟨pair, hpair, rfl⟩ := hg
    obtain ⟨b, hb, rfl⟩ := hpair
    constructor
    · rfl
    · intro ch hch
      have hblt : b < 256 := hbytes b hb
      have hch2 : ch ∈ byteToHexUpper b := hch
      simp only [byteToHexUpper, List.mem_cons, List.mem_singleton] at hch2
      rcases hch2 with h | h | h
      · exact h ▸ hexDigitUpper_mem (b / 16) (Nat.div_lt_of_lt_mul (by omega))
      · exact h ▸ hexDigitUpper_mem (b % 16) (Nat.mod_lt b (by norm_num))
      · exact absurd h (List.not_mem_nil ch)

/-- Witness for C6 at a fixed 32-byte digest. -/
theorem fingerprint_format_and_construction_witness :
    certFix.sha256.length = 32 ∧
    bundleFix.fingerprint = _fingerprint certFix := by
  refine ⟨by decide, ?_⟩
  exact (fingerprint_format_and_construction certFix (by decide)
    (by decide)).2.1 "x.example.org" "2026-01-01T00:00:00" compCert compKey none

/-- C9: in dry-run mode, executing a workflow of N named tasks prints the
banner line followed by exactly N lines of the form `Would run task: <name>`
in order, and invokes none of the tasks' bound exec operations. -/
theorem dry_run_prints_names (workflow : List BigipTask) (names : List String)
    (h : workflow.map (fun t => t.name) = names.map some) :
    (entrypointRun true workflow).1 =
      dryRunBanner :: names.map (fun n => "Would run task: " ++ n) ∧
    (entrypointRun true workflow).1.length = workflow.length + 1 ∧
    (entrypointRun true workflow).2 = [] := by
  have hlines : (runTasks true workflow).1 =
      names.map (fun n => "Would run task: " ++ n) := by
    rw [runTasks_dry]
    induction workflow generalizing names with
    | nil =>
      cases names with
      | nil => rfl
      | cons n ns => simp at h
    | cons t rest ih =>
      cases names with
      | nil => simp at h
      | cons n ns =>
        simp only [List.map_cons, List.cons.injEq] at h ⊢
        refine ⟨by rw [h.1]; rfl, ih ns h.2⟩
  have hlen : names.length = workflow.length := by
    have := congrArg List.length h
    simp at this
    omega
  refine ⟨?_, ?_, ?_⟩
  · simp [entrypointRun, hlines]
  · simp [entrypointRun, hlines, hlen]
  · simp [entrypointRun, runTasks_dry]

/-- Witness for C9 on the concrete twelve-task workflow of `deployerFix`. -/
theorem dry_run_prints_names_witness :
    deployerFix.get_workflow.map (fun t => t.name) = wfNames.map some ∧
    (entrypointRun true deployerFix.get_workflow).1.length =
      deployerFix.get_workflow.length + 1 ∧
    (entrypointRun true deployerFix.get_workflow).2 = [] := by
  have h := dry_run_prints_names deployerFix.get_workflow wfNames (by rfl)
  exact ⟨by rfl, h.2.1, h.2.2⟩

end Bigip
